import Mathlib

/-!
Shallow embedding of the MCCI_Catena_SCD30 sensor driver
(src/src/MCCI_Catena_SCD30.h, src/src/MCCI_Catena_SCD30.cpp) and of the
scd30_lorawan example's measurement loop
(src/examples/scd30_lorawan/cMeasurementLoop.cpp).

Machine integers are modelled as `Nat`/`Int` with explicit reductions
modulo `2^8`/`2^16`/`2^32` where the C code truncates; IEEE-754 single
values are modelled as exact rationals (every finite float is a rational,
and the code maps NaN and denormal bit patterns to zero before use).
The I2C bus (`TwoWire`) is modelled as an oracle: a list of responses for
write transactions and for read transactions, consumed in order; the
frames handed to the bus are recorded in a trace.  The millisecond clock
(`millis()`) is sampled once per public driver call (`Env.now`).
-/

namespace Scd30

/-- Driver lifecycle state, `enum class State` in MCCI_Catena_SCD30.h. -/
inductive State where
  | Uninitialized
  | End
  | Initial
  | Idle
  | Triggered
  | Ready
deriving DecidableEq, Repr

/-- Numeric value of the `State` enum (declaration order, from 0). -/
def State.idx : State → Nat
  | .Uninitialized => 0
  | .End => 1
  | .Initial => 2
  | .Idle => 3
  | .Triggered => 4
  | .Ready => 5

/-- Error codes, `enum class Error` in MCCI_Catena_SCD30.h. -/
inductive Error where
  | Success
  | NoWire
  | CommandWriteFailed
  | CommandWriteBufferFailed
  | InternalInvalidParameter
  | I2cReadShort
  | I2cReadRequest
  | I2cReadLong
  | Busy
  | NotMeasuring
  | Crc
  | Uninitialized
  | InvalidParameter
  | InternalInvalidState
  | SensorUpdateFailed
deriving DecidableEq, Repr

/-- I2C command codes, `enum class Command` in MCCI_Catena_SCD30.h. -/
inductive Command where
  | StartContinuousMeasurement
  | StopContinuosMeasurement
  | GetDataReady
  | ReadMeasurement
  | SetMeasurementInterval
  | AltitudeCompensation
  | SetForcedRecalibration
  | EnableAutoSelfCal
  | SetTemperatureOffset
  | ReadFirmwareVersion
  | SoftReset
deriving DecidableEq, Repr

/-- 16-bit code of each command (values from the header). -/
def Command.code : Command → Nat
  | .StartContinuousMeasurement => 0x0036
  | .StopContinuosMeasurement => 0x0104
  | .GetDataReady => 0x0202
  | .ReadMeasurement => 0x0300
  | .SetMeasurementInterval => 0x4600
  | .AltitudeCompensation => 0x5102
  | .SetForcedRecalibration => 0x5204
  | .EnableAutoSelfCal => 0x5306
  | .SetTemperatureOffset => 0x5403
  | .ReadFirmwareVersion => 0xD100
  | .SoftReset => 0xD304

/-- `struct Measurement`: three IEEE-754 single fields, modelled as exact
rationals. -/
structure Measurement where
  CO2ppm : ℚ
  Temperature : ℚ
  RelativeHumidity : ℚ
deriving DecidableEq, Repr

/-- `struct ProductInfo` (unsigned fields as `Nat`, signed as `Int`). -/
structure ProductInfo where
  FirmwareVersion : Nat
  MeasurementInterval : Nat
  fASC_status : Nat
  ForcedRecalibrationValue : Nat
  TemperatureOffset : Int
  AltitudeCompensation : Int
deriving DecidableEq, Repr

/-- The mutable fields of `class cSCD30`.  `m_address` holds the `int8`
value of the `Address` enum (`SCD30 = 0x61`, `Error = -1`). -/
structure DriverState where
  m_Measurement : Measurement
  m_tReady : Nat
  m_ProductInfo : ProductInfo
  m_address : Int
  m_lastError : Error
  m_state : State
deriving DecidableEq, Repr

/-- Result of one bus write transaction
(`write` return count, `endTransmission` status). -/
structure WireWriteResp where
  nWritten : Nat
  endStatus : Nat
deriving DecidableEq, Repr

/-- Result of one bus read transaction (`requestFrom` return count,
`available` count, the bytes delivered by successive `read()` calls). -/
structure WireReadResp where
  nReadFrom : Nat
  nAvail : Nat
  data : List Nat
deriving DecidableEq, Repr

/-- The environment of one driver call: the sampled millisecond clock and
the bus oracle (responses consumed front to back). -/
structure Env where
  now : Nat
  writes : List WireWriteResp
  reads : List WireReadResp
deriving DecidableEq, Repr

/-- A driver world: driver fields, environment, and the trace of byte
frames handed to the bus so far. -/
structure W where
  drv : DriverState
  env : Env
  trace : List (List Nat)
deriving DecidableEq, Repr

/-- Pop the next write-transaction response; an exhausted oracle behaves
as a failing bus (`0` bytes accepted, nonzero end status). -/
def popWrite (w : W) : WireWriteResp × W :=
  match w.env.writes with
  | [] => (⟨0, 1⟩, w)
  | r :: rest => (r, { w with env := { w.env with writes := rest } })

/-- Pop the next read-transaction response; an exhausted oracle behaves
as a silent bus (nothing delivered). -/
def popRead (w : W) : WireReadResp × W :=
  match w.env.reads with
  | [] => (⟨0, 0, []⟩, w)
  | r :: rest => (r, { w with env := { w.env with reads := rest } })

/-- `cSCD30::setLastError`: records the error and returns
`e == Error::Success`. -/
def setLastError (w : W) (e : Error) : W × Bool :=
  ({ w with drv := { w.drv with m_lastError := e } }, e = Error.Success)

/-- `cSCD30::isRunning`: `m_state > State::End`. -/
def isRunning (w : W) : Bool := w.drv.m_state.idx > 1

/-- `cSCD30::checkRunning`. -/
def checkRunning (w : W) : W × Bool :=
  if isRunning w then (w, true) else setLastError w Error.Uninitialized

/-- The 16-entry lookup table of `cSCD30::crc`. -/
def crcTable : List Nat :=
  [0x00, 0x31, 0x62, 0x53, 0xc4, 0xf5, 0xa6, 0x97,
   0xb9, 0x88, 0xdb, 0xea, 0x7d, 0x4c, 0x1f, 0x2e]

/-- One byte step of `cSCD30::crc` (two nibble steps; `crc8` and the
byte are `uint8`, so each table mix is truncated to 8 bits). -/
def crcStep (crc8 b : Nat) : Nat :=
  let p1 := (b ^^^ crc8) >>> 4
  let c1 := ((crc8 <<< 4) ^^^ crcTable.getD p1 0) % 256
  let p2 := ((c1 >>> 4) ^^^ b) &&& 0xF
  ((c1 <<< 4) ^^^ crcTable.getD p2 0) % 256

/-- `cSCD30::crc` with an explicit initial value (the C default argument
is `0xFF`; see `crc`). -/
def crcFrom (init : Nat) (buf : List Nat) : Nat := buf.foldl crcStep init

/-- `cSCD30::crc(buf, nBuf)` with the default initial value `0xFF`. -/
def crc (buf : List Nat) : Nat := crcFrom 0xFF buf

/-- The loop of `cSCD30::crc_multi`: per 3-byte group, compare the CRC of
the two data bytes against the stored third byte; a leftover of 1 or 2
bytes is an internal parameter error. -/
def crcMultiLoop (w : W) : List Nat → W × Bool
  | b0 :: b1 :: b2 :: rest =>
      if crc [b0, b1] ≠ b2 then setLastError w Error.Crc
      else crcMultiLoop w rest
  | [] => (w, true)
  | _ => setLastError w Error.InternalInvalidParameter

/-- `cSCD30::crc_multi` (the buffer-null guard is the `bufNull` flag; a
Lean list itself is never null). -/
def crc_multi (w : W) (bufNull : Bool) (buf : List Nat) : W × Bool :=
  if bufNull then setLastError w Error.InternalInvalidParameter
  else crcMultiLoop w buf

/-- Reduction modulo `2^32` (`uint32` truncation). -/
def u32 (n : Nat) : Nat := n % 4294967296

/-- `uint32` subtraction `a - b` (wraparound). -/
def u32sub (a b : Nat) : Nat := (u32 a + 4294967296 - u32 b) % 4294967296

/-- Reinterpret a `uint32` value as a two's-complement `int32`. -/
def toInt32 (n : Nat) : Int :=
  let m := u32 n
  if m < 2147483648 then (m : Int) else (m : Int) - 4294967296

/-- `cSCD30::getUint16BE`: `(p[0] << 8) + p[1]`. -/
def getUint16BE (p : List Nat) : Nat := (p.getD 0 0 <<< 8) + p.getD 1 0

/-- `cSCD30::writeCommandBuffer`: one bus write transaction
(`beginTransmission` / `write` / `endTransmission`).  The frame handed to
`write` is recorded in the trace. -/
def writeCommandBuffer (w : W) (frame : List Nat) : W × Bool :=
  let p := popWrite w
  let w1 := { p.2 with trace := p.2.trace ++ [frame] }
  if p.1.nWritten ≠ frame.length then
    setLastError w1 Error.CommandWriteBufferFailed
  else if p.1.endStatus ≠ 0 then setLastError w1 Error.CommandWriteFailed
  else (w1, true)

/-- `cSCD30::writeCommand(Command)`: 2-byte big-endian command frame. -/
def writeCommand (w : W) (c : Command) : W × Bool :=
  writeCommandBuffer w [(c.code >>> 8) % 256, c.code % 256]

/-- `cSCD30::writeCommand(Command, uint16)`: 5-byte frame — command,
big-endian parameter, CRC of the two parameter bytes. -/
def writeCommandParam (w : W) (c : Command) (param : Nat) : W × Bool :=
  let hi := (param >>> 8) % 256
  let lo := param % 256
  writeCommandBuffer w
    [(c.code >>> 8) % 256, c.code % 256, hi, lo, crc [hi, lo]]

/-- `cSCD30::readResponse(buf, nBuf)`: one bus read transaction.  The
length guard uses the source's octal constant `011111111111u`, whose set
bits are exactly the multiples of 3 up to 30.  Returns the result flag
and the bytes read into the buffer. -/
def readResponse (w : W) (bufNull : Bool) (nBuf : Nat) :
    W × Bool × List Nat :=
  if bufNull ∨ nBuf > 30 ∨ w.drv.m_address < 0 ∨
      ((0o11111111111 >>> nBuf) &&& 1) = 0 then
    let p := setLastError w Error.InternalInvalidParameter
    (p.1, p.2, [])
  else
    let q := popRead w
    let r := q.1
    let w1 := q.2
    if r.nReadFrom ≠ nBuf then
      let p := setLastError w1 Error.I2cReadRequest
      (p.1, p.2, [])
    else if r.nAvail > nBuf then
      let p := setLastError w1 Error.I2cReadLong
      (p.1, p.2, [])
    else
      let buf := (List.range r.nAvail).map (fun i => r.data.getD i 0)
      if r.nAvail ≠ nBuf then
        let p := setLastError w1 Error.I2cReadShort
        (p.1, p.2, buf)
      else
        let p := crc_multi w1 bufNull buf
        (p.1, p.2, buf)

/-- `cSCD30::readUint16`: issue a command, wait `kReadDelayMs`, read a
3-byte CRC-protected response, decode big-endian.  On any failure the
out-value is 0. -/
def readUint16 (w : W) (c : Command) : W × Bool × Nat :=
  let p0 := checkRunning w
  if ¬ p0.2 then (p0.1, false, 0)
  else
    let p1 := writeCommand p0.1 c
    if ¬ p1.2 then (p1.1, false, 0)
    else
      let p2 := readResponse p1.1 false 3
      if p2.2.1 then (p2.1, true, getUint16BE p2.2.2)
      else (p2.1, false, 0)

/-- `cSCD30::readMeasurementInterval`. -/
def readMeasurementInterval (w : W) : W × Bool × Nat :=
  readUint16 w Command.SetMeasurementInterval

/-- `cSCD30::readDataReadyStatus`. -/
def readDataReadyStatus (w : W) : W × Bool × Nat :=
  readUint16 w Command.GetDataReady

/-- `cSCD30::setMeasurementInterval`: reject intervals below 2, write the
new interval, read it back, and cache the device's acknowledged value. -/
def setMeasurementInterval (w : W) (interval : Nat) : W × Bool :=
  if interval < 2 then setLastError w Error.InvalidParameter
  else
    let p0 := checkRunning w
    if ¬ p0.2 then (p0.1, false)
    else
      let p1 := writeCommandParam p0.1 Command.SetMeasurementInterval interval
      if ¬ p1.2 then (p1.1, false)
      else
        let p2 := readMeasurementInterval p1.1
        if p2.2.1 then
          ({ p2.1 with drv := { p2.1.drv with m_ProductInfo :=
            { p2.1.drv.m_ProductInfo with MeasurementInterval := p2.2.2 } } },
           true)
        else (p2.1, false)

/-- `cSCD30::startContinuousMeasurementCommon`.  Note: the source issues
the parameterless `writeCommand(Command::StartContinuousMeasurement)` and
never uses `param` (MCCI_Catena_SCD30.cpp line 331). -/
def startContinuousMeasurementCommon (w : W) (_param : Nat) : W × Bool :=
  let p0 := checkRunning w
  if ¬ p0.2 then (p0.1, false)
  else
    let p1 := writeCommand p0.1 Command.StartContinuousMeasurement
    if p1.2 then
      ({ p1.1 with drv := { p1.1.drv with
          m_state := State.Triggered,
          m_tReady :=
            u32 (p1.1.env.now +
              p1.1.drv.m_ProductInfo.MeasurementInterval * 1000) } },
       true)
    else (p1.1, false)

/-- `cSCD30::startContinuousMeasurement()` (no pressure argument). -/
def startContinuousMeasurement (w : W) : W × Bool :=
  startContinuousMeasurementCommon w 0

/-- `cSCD30::startContinuousMeasurement(uint16 pressure_mBar)`: rejects
pressures outside 700–1400 mBar, then delegates. -/
def startContinuousMeasurementWithPressure (w : W) (pressure : Nat) :
    W × Bool :=
  if pressure < 700 ∨ pressure > 1400 then
    setLastError w Error.InvalidParameter
  else startContinuousMeasurementCommon w pressure

/-- `cSCD30::queryReady(bool &fError)`: non-blocking readiness poll.
Returns `(world, result, fError)`. -/
def queryReady (w : W) : W × Bool × Bool :=
  let p0 := checkRunning w
  if ¬ p0.2 then (p0.1, false, true)
  else if p0.1.drv.m_state = State.Ready then (p0.1, true, false)
  else if p0.1.drv.m_state = State.Idle then
    let p := setLastError p0.1 Error.NotMeasuring
    (p.1, p.2, true)
  else if toInt32 (u32sub p0.1.env.now p0.1.drv.m_tReady) < 0 then
    let p := setLastError p0.1 Error.Busy
    (p.1, p.2, false)
  else if p0.1.drv.m_state = State.Triggered ∨
      p0.1.drv.m_state = State.Initial then
    let q := readDataReadyStatus p0.1
    if ¬ q.2.1 then
      ({ q.1 with drv := { q.1.drv with
          m_tReady := u32 (q.1.env.now + 1000) } }, false, true)
    else if q.2.2 ≠ 0 then
      ({ q.1 with drv := { q.1.drv with m_state := State.Ready } },
       true, false)
    else if q.1.drv.m_state = State.Initial then
      let s := startContinuousMeasurement q.1
      if ¬ s.2 then
        ({ s.1 with drv := { s.1.drv with
            m_tReady := u32 (s.1.env.now + 1000) } }, false, true)
      else
        let p := setLastError s.1 Error.Busy
        (p.1, p.2, false)
    else
      let w2 := { q.1 with drv := { q.1.drv with
          m_tReady := u32 (q.1.env.now + 100) } }
      let p := setLastError w2 Error.Busy
      (p.1, p.2, false)
  else if p0.1.drv.m_state = State.Ready then (p0.1, true, false)
  else
    let p := setLastError p0.1 Error.InternalInvalidState
    (p.1, p.2, true)

/-- Exact rational value of an IEEE-754 single given its 32-bit pattern,
for patterns whose exponent field is nonzero (normal numbers; after the
source's NaN/denorm filtering the remaining zero-exponent patterns are
signed zeros, returned as 0). -/
def bitsToRat (u : Nat) : ℚ :=
  let sign : ℚ := if u >>> 31 = 1 then -1 else 1
  let e := (u >>> 23) &&& 0xFF
  let m := u &&& 0x7FFFFF
  if e = 0 then 0
  else sign * ((2 : ℚ) ^ e / 2 ^ 127) * (1 + (m : ℚ) / 2 ^ 23)

/-- `cSCD30::getFloat32BE`: assemble the 32-bit pattern from bytes 0, 1,
3, 4 (skipping the per-group CRC bytes), map NaN patterns to zero and
denormals to signed zero, and read off the value. -/
def getFloat32BE (p : List Nat) : ℚ :=
  let u := (p.getD 0 0 <<< 24) ||| (p.getD 1 0 <<< 16) |||
           (p.getD 3 0 <<< 8) ||| p.getD 4 0
  if u &&& 0x7F800000 = 0x7F800000 then 0
  else if u &&& 0x7F800000 = 0 then bitsToRat (u &&& 0xFF800000)
  else bitsToRat u

/-- `cSCD30::readMeasurement`: poll readiness, then issue the
read-measurement command, reschedule, read the 18-byte response and on
success overwrite the cached measurement. -/
def readMeasurement (w : W) : W × Bool :=
  let q := queryReady w
  if ¬ q.2.1 then (q.1, false)
  else
    let p1 := writeCommand q.1 Command.ReadMeasurement
    if ¬ p1.2 then (p1.1, false)
    else
      let w2 := { p1.1 with drv := { p1.1.drv with
          m_state := State.Triggered,
          m_tReady :=
            u32 (p1.1.env.now +
              p1.1.drv.m_ProductInfo.MeasurementInterval * 1000) } }
      let p2 := readResponse w2 false 18
      if p2.2.1 then
        ({ p2.1 with drv := { p2.1.drv with m_Measurement :=
            { CO2ppm := getFloat32BE p2.2.2,
              Temperature := getFloat32BE (p2.2.2.drop 6),
              RelativeHumidity := getFloat32BE (p2.2.2.drop 12) } } },
         true)
      else (p2.1, false)

/-- `cSCD30::getRelativeHumidity`: as written in the header (line 220)
this accessor returns `m_Measurement.CO2ppm`. -/
def getRelativeHumidity (s : DriverState) : ℚ := s.m_Measurement.CO2ppm

/-- `cSCD30::getTemperature`. -/
def getTemperature (s : DriverState) : ℚ := s.m_Measurement.Temperature

/-- `cSCD30::getCO2ppm`. -/
def getCO2ppm (s : DriverState) : ℚ := s.m_Measurement.CO2ppm

/-- `cSCD30::getMeasurement`. -/
def getMeasurement (s : DriverState) : Measurement := s.m_Measurement

/-- `cSCD30::getMsToNextMeasurement`: wraparound-safe clamp to zero. -/
def getMsToNextMeasurement (s : DriverState) (now : Nat) : Nat :=
  if toInt32 (u32sub s.m_tReady now) < 0 then 0 else u32sub s.m_tReady now

end Scd30

namespace Scd30Loop

/-- Orchestrator FSM states of `cMeasurementLoop`
(cMeasurementLoop.cpp switch cases; the enum lives in the example's
header, its constructor names are those used by the dispatch code). -/
inductive LState where
  | stNoChange
  | stInitial
  | stInactive
  | stSleeping
  | stWake
  | stMeasure
  | stSleepSensor
  | stTransmit
  | stFinal
deriving DecidableEq, Repr

/-- The `cMeasurementLoop` fields touched by `fsmDispatch`. -/
structure LoopState where
  m_rqActive : Bool
  m_rqInactive : Bool
  m_active : Bool
  m_measurement_valid : Bool
deriving DecidableEq, Repr

/-- Oracle inputs of one `fsmDispatch` evaluation: the outcomes of the
sensor-driver calls (`queryReady` result and its `fError` out-flag,
`getMsToNextMeasurement`, `readMeasurement`), the settle-timer and the
transmit-completion flags. -/
structure LoopIn where
  queryReadyResult : Bool
  queryReadyError : Bool
  msToNext : Nat
  readMeasurementResult : Bool
  timedOut : Bool
  txComplete : Bool
deriving DecidableEq, Repr

/-- `cMeasurementLoop::fsmDispatch`: one evaluation of the orchestrator
FSM.  Pure side effects (LED patterns, logging, `sleep()`, building and
launching the transmission) do not touch the modelled fields and are
omitted; the function returns the new state together with the updated
fields. -/
def fsmDispatch (currentState : LState) (fEntry : Bool) (ls : LoopState)
    (i : LoopIn) : LState × LoopState :=
  match currentState with
  | .stInitial => (.stInactive, ls)
  | .stInactive =>
      if ls.m_rqActive then
        (.stWake, { ls with m_rqActive := false, m_rqInactive := false,
                            m_active := true })
      else (.stNoChange, ls)
  | .stSleeping =>
      if ls.m_rqInactive then
        (.stInactive, { ls with m_rqActive := false, m_rqInactive := false,
                                m_active := false })
      else if i.queryReadyResult then (.stMeasure, ls)
      else if i.queryReadyError then (.stInactive, ls)
      else if i.msToNext < 20 then (.stWake, ls)
      else (.stNoChange, ls)
  | .stWake =>
      if i.timedOut then (.stMeasure, ls) else (.stNoChange, ls)
  | .stMeasure =>
      let ls1 := if fEntry then { ls with m_measurement_valid := false }
                 else ls
      if i.queryReadyResult then
        (.stSleepSensor,
         { ls1 with m_measurement_valid := i.readMeasurementResult })
      else if i.queryReadyError then (.stSleepSensor, ls1)
      else (.stNoChange, ls1)
  | .stSleepSensor => (.stTransmit, ls)
  | .stTransmit =>
      if i.txComplete then (.stSleeping, ls) else (.stNoChange, ls)
  | .stFinal => (.stNoChange, ls)
  | .stNoChange => (.stNoChange, ls)

/-- `cMeasurementLoop::checkDeepSleep`: the sleep-depth decision ladder
over the remaining milliseconds to the next measurement and the
environment flags (deep-sleep-test operating flag, debug console
attached via `Serial.dtr()`, deep-sleep-disabled operating flag,
unattended operating flag). -/
def checkDeepSleep (msToNext : Nat) (fDeepSleepTest fDtr fDisableDeepSleep
    fUnattended : Bool) : Bool :=
  let sleepInterval := msToNext / 1000
  if sleepInterval < 2 then false
  else if fDeepSleepTest then true
  else if fDtr then false
  else if fDisableDeepSleep then false
  else if fUnattended then true
  else false

/-- The reference ladder of the spec (§4.5), stated over the remaining
time in whole seconds: remaining below 2 s selects light sleep; then the
test-mode flag selects deep sleep; then an attached console selects
light; then disabled deep sleep selects light; then the unattended flag
selects deep; otherwise light. -/
def sleepPolicySpec (remaining : Nat) (testMode console disabled
    unattended : Bool) : Bool :=
  if remaining < 2 then false
  else if testMode then true
  else if console then false
  else if disabled then false
  else if unattended then true
  else false

/-- Payload flag bits.  Modelled from the spec: the `Flags` enum lives in
the example's header (not under src/); the spec's wire format fixes
bit 0 = battery, bit 1 = boot, bit 2 = temperature+humidity,
bit 3 = CO2. -/
def FlagsVbat : Nat := 1

/-- Modelled from the spec: boot-count flag bit (bit 1). -/
def FlagsBoot : Nat := 2

/-- Modelled from the spec: temperature+humidity flag bit (bit 2). -/
def FlagsTH : Nat := 4

/-- Modelled from the spec: CO2 flag bit (bit 3). -/
def FlagsCO2ppm : Nat := 8

/-- `TxBuffer::put2(uint32)`: append a 16-bit value big-endian.
Modelled from the spec: `TxBuffer_t` is an external library type; the
spec's wire format gives each 16-bit field two bytes. -/
def put2u (v : Nat) : List Nat := [(v >>> 8) % 256, v % 256]

/-- `TxBuffer::put2(int32)`: append a signed 16-bit value as its
two's-complement low 16 bits, big-endian (modelled from the spec's
"2 bytes signed" wire format). -/
def put2i (v : Int) : List Nat := put2u ((v % 65536).toNat)

/-- Truncation toward zero of a rational, the C cast from float to an
integer type. -/
def ratTrunc (q : ℚ) : Int := if q ≥ 0 then ⌊q⌋ else -⌊-q⌋

/-- The external collaborators of `fillTxBuffer`: the battery-voltage
encoder `TxBuffer::putV`, the boot-count encoder
`TxBuffer::putBootCountLsb` and the bounded-float encoder
`LMIC_f2uflt16` are external library functions, kept abstract; the
format-identifier byte `kMessageFormat` and the sampled battery voltage
and boot counter are environment values. -/
structure EncEnv where
  putVbytes : ℚ → List Nat
  putBootBytes : Nat → List Nat
  f2uflt16 : ℚ → Nat
  kMessageFormat : Nat
  Vbat : ℚ
  bootCount : Option Nat

/-- `cMeasurementLoop::fillTxBuffer`: build the uplink payload.  Returns
the byte buffer (with the flags byte patched in at index 1) and the
final flags value.  `fSCD` is `m_fSCD`, `valid` is
`m_measurement_valid`, `m` is the driver's cached measurement. -/
def fillTxBuffer (e : EncEnv) (fSCD valid : Bool) (m : Scd30.Measurement) :
    List Nat × Nat :=
  let flag0 : Nat := 0
  let body1 := e.putVbytes e.Vbat
  let flag1 := flag0 ||| FlagsVbat
  let withBoot :=
    match e.bootCount with
    | some bc => (body1 ++ e.putBootBytes bc, flag1 ||| FlagsBoot)
    | none => (body1, flag1)
  let withScd :=
    if fSCD ∧ valid then
      let b2 := withBoot.1 ++
        put2i (ratTrunc (m.Temperature * 200 + 1 / 2)) ++
        put2u ((ratTrunc (m.RelativeHumidity * 65535 / 100 + 1 / 2)).toNat
          % 4294967296)
      let f2 := withBoot.2 ||| FlagsTH
      if m.CO2ppm ≠ 0 then
        (b2 ++ put2u (e.f2uflt16 (m.CO2ppm / 40000) % 4294967296),
         f2 ||| FlagsCO2ppm)
      else (b2, f2)
    else withBoot
  (e.kMessageFormat % 256 :: withScd.2 % 256 :: withScd.1, withScd.2)

end Scd30Loop

/-! Theorems settling the claims. -/

/-- Bits of the octal length mask `011111111111u`: for every length up to
30 that is not a multiple of 3, the tested bit is clear. -/
theorem lenMask_bit_zero :
    ∀ n < 31, n % 3 ≠ 0 → ((0o11111111111 >>> n) &&& 1) = 0 := by decide

/-- Claim C1 (amended): for every requested response-buffer length that
is not a multiple of 3 (such a length is necessarily nonzero),
`readResponse` returns false and sets the last error to
`InternalInvalidParameter`, leaving everything else unchanged and
reading nothing.  (Length 0 itself passes the source's length check; see
the counterexample.) -/
theorem readResponse_rejects_nonmultiple_of_3 (w : Scd30.W)
    (bufNull : Bool) (nBuf : Nat) (h : nBuf % 3 ≠ 0) :
    Scd30.readResponse w bufNull nBuf =
      ({ w with drv := { w.drv with
          m_lastError := Scd30.Error.InternalInvalidParameter } },
       false, []) := by
  have hguard : (bufNull = true) ∨ nBuf > 30 ∨ w.drv.m_address < 0 ∨
      ((0o11111111111 >>> nBuf) &&& 1) = 0 := by
    by_cases h30 : nBuf > 30
    · exact Or.inr (Or.inl h30)
    · exact Or.inr (Or.inr (Or.inr (lenMask_bit_zero nBuf (by omega) h)))
  simp only [Scd30.readResponse, Scd30.setLastError]
  rw [if_pos hguard]
  simp

/-- Witness for claim C1's amended theorem at length 4. -/
theorem readResponse_rejects_nonmultiple_of_3_witness :
    (4 % 3 ≠ 0) ∧
    Scd30.readResponse
        ⟨⟨⟨400, 25, 50⟩, 0, ⟨0, 2, 0, 0, 0, 0⟩, 0x61,
          Scd30.Error.Success, Scd30.State.Triggered⟩,
         ⟨0, [], []⟩, []⟩ false 4 =
      (⟨⟨⟨400, 25, 50⟩, 0, ⟨0, 2, 0, 0, 0, 0⟩, 0x61,
          Scd30.Error.InternalInvalidParameter, Scd30.State.Triggered⟩,
        ⟨0, [], []⟩, []⟩, false, []) :=
  ⟨by decide,
   readResponse_rejects_nonmultiple_of_3
     ⟨⟨⟨400, 25, 50⟩, 0, ⟨0, 2, 0, 0, 0, 0⟩, 0x61,
       Scd30.Error.Success, Scd30.State.Triggered⟩,
      ⟨0, [], []⟩, []⟩ false 4 (by decide)⟩

/-- Claim C1 counterexample: a requested length of 0 is not a positive
multiple of 3, yet with a cooperative bus `readResponse` returns true
and leaves the last error untouched — the source's octal-mask check
accepts 0 as a multiple of 3. -/
theorem readResponse_length_zero_succeeds :
    (Scd30.readResponse
        ⟨⟨⟨400, 25, 50⟩, 0, ⟨0, 2, 0, 0, 0, 0⟩, 0x61,
          Scd30.Error.Success, Scd30.State.Triggered⟩,
         ⟨0, [], [⟨0, 0, []⟩]⟩, []⟩ false 0).2.1 = true ∧
    (Scd30.readResponse
        ⟨⟨⟨400, 25, 50⟩, 0, ⟨0, 2, 0, 0, 0, 0⟩, 0x61,
          Scd30.Error.Success, Scd30.State.Triggered⟩,
         ⟨0, [], [⟨0, 0, []⟩]⟩, []⟩ false 0).1.drv.m_lastError =
      Scd30.Error.Success := by
  constructor <;> rfl

/-- Claim C2: the relative-humidity accessor disagrees with the cached
measurement's relative-humidity component — the header (line 220)
returns `m_Measurement.CO2ppm`.  Evaluated at a cached measurement with
CO2ppm = 400 and RelativeHumidity = 50. -/
theorem getRelativeHumidity_returns_CO2ppm :
    Scd30.getRelativeHumidity
        ⟨⟨400, 25, 50⟩, 0, ⟨0, 2, 0, 0, 0, 0⟩, 0x61,
         Scd30.Error.Success, Scd30.State.Triggered⟩ = 400 ∧
    (Scd30.getMeasurement
        ⟨⟨400, 25, 50⟩, 0, ⟨0, 2, 0, 0, 0, 0⟩, 0x61,
         Scd30.Error.Success, Scd30.State.Triggered⟩).RelativeHumidity
      = 50 ∧
    Scd30.getRelativeHumidity
        ⟨⟨400, 25, 50⟩, 0, ⟨0, 2, 0, 0, 0, 0⟩, 0x61,
         Scd30.Error.Success, Scd30.State.Triggered⟩ ≠
      (Scd30.getMeasurement
        ⟨⟨400, 25, 50⟩, 0, ⟨0, 2, 0, 0, 0, 0⟩, 0x61,
         Scd30.Error.Success, Scd30.State.Triggered⟩).RelativeHumidity := by
  refine ⟨rfl, rfl, ?_⟩
  decide

/-- Claim C3 (amended): for every interval below 2,
`setMeasurementInterval` returns false with last error
`InvalidParameter`, issues no bus command (the trace is unchanged) and
leaves the cached product info (hence the cached interval) unchanged;
intervals above 1800 are not rejected. -/
theorem setMeasurementInterval_rejects_below_2 (w : Scd30.W)
    (interval : Nat) (h : interval < 2) :
    (Scd30.setMeasurementInterval w interval).2 = false ∧
    (Scd30.setMeasurementInterval w interval).1.drv.m_lastError =
      Scd30.Error.InvalidParameter ∧
    (Scd30.setMeasurementInterval w interval).1.trace = w.trace ∧
    (Scd30.setMeasurementInterval w interval).1.drv.m_ProductInfo =
      w.drv.m_ProductInfo := by
  simp [Scd30.setMeasurementInterval, Scd30.setLastError, h]

/-- Witness for claim C3's amended theorem at interval 1. -/
theorem setMeasurementInterval_rejects_below_2_witness :
    (1 < 2) ∧
    ((Scd30.setMeasurementInterval
        ⟨⟨⟨400, 25, 50⟩, 0, ⟨0, 2, 0, 0, 0, 0⟩, 0x61,
          Scd30.Error.Success, Scd30.State.Triggered⟩,
         ⟨0, [], []⟩, []⟩ 1).2 = false ∧
     (Scd30.setMeasurementInterval
        ⟨⟨⟨400, 25, 50⟩, 0, ⟨0, 2, 0, 0, 0, 0⟩, 0x61,
          Scd30.Error.Success, Scd30.State.Triggered⟩,
         ⟨0, [], []⟩, []⟩ 1).1.drv.m_lastError =
       Scd30.Error.InvalidParameter ∧
     (Scd30.setMeasurementInterval
        ⟨⟨⟨400, 25, 50⟩, 0, ⟨0, 2, 0, 0, 0, 0⟩, 0x61,
          Scd30.Error.Success, Scd30.State.Triggered⟩,
         ⟨0, [], []⟩, []⟩ 1).1.trace =
       (⟨⟨⟨400, 25, 50⟩, 0, ⟨0, 2, 0, 0, 0, 0⟩, 0x61,
          Scd30.Error.Success, Scd30.State.Triggered⟩,
         ⟨0, [], []⟩, []⟩ : Scd30.W).trace ∧
     (Scd30.setMeasurementInterval
        ⟨⟨⟨400, 25, 50⟩, 0, ⟨0, 2, 0, 0, 0, 0⟩, 0x61,
          Scd30.Error.Success, Scd30.State.Triggered⟩,
         ⟨0, [], []⟩, []⟩ 1).1.drv.m_ProductInfo =
       (⟨⟨⟨400, 25, 50⟩, 0, ⟨0, 2, 0, 0, 0, 0⟩, 0x61,
          Scd30.Error.Success, Scd30.State.Triggered⟩,
         ⟨0, [], []⟩, []⟩ : Scd30.W).drv.m_ProductInfo) :=
  ⟨by decide,
   setMeasurementInterval_rejects_below_2
     ⟨⟨⟨400, 25, 50⟩, 0, ⟨0, 2, 0, 0, 0, 0⟩, 0x61,
       Scd30.Error.Success, Scd30.State.Triggered⟩,
      ⟨0, [], []⟩, []⟩ 1 (by decide)⟩

/-- Claim C3 counterexample: interval 1801 lies outside the valid range
[2,1800], yet on a running driver `setMeasurementInterval` issues bus
commands (the trace grows) and never sets `InvalidParameter` — the
source checks only the lower bound. -/
theorem setMeasurementInterval_1801_issues_command :
    (Scd30.setMeasurementInterval
        ⟨⟨⟨400, 25, 50⟩, 0, ⟨0, 2, 0, 0, 0, 0⟩, 0x61,
          Scd30.Error.Success, Scd30.State.Triggered⟩,
         ⟨0, [⟨5, 0⟩], []⟩, []⟩ 1801).1.trace ≠ [] ∧
    (Scd30.setMeasurementInterval
        ⟨⟨⟨400, 25, 50⟩, 0, ⟨0, 2, 0, 0, 0, 0⟩, 0x61,
          Scd30.Error.Success, Scd30.State.Triggered⟩,
         ⟨0, [⟨5, 0⟩], []⟩, []⟩ 1801).1.drv.m_lastError ≠
      Scd30.Error.InvalidParameter := by
  constructor <;> decide

/-- Claim C4: the CRC-8 with initial value 0xFF maps the bytes
0xBE, 0xEF to 0x92, and the function is deterministic — equal inputs
give equal outputs. -/
theorem crc_BEEF_is_92_and_deterministic :
    Scd30.crc [0xBE, 0xEF] = 0x92 ∧
    ∀ bs : List Nat, Scd30.crc bs = Scd30.crc bs :=
  ⟨by decide, fun _ => rfl⟩

/-- Claim C7: `checkDeepSleep` equals the spec's reference ladder
evaluated at the remaining whole seconds, and the two quoted instances:
1 s remaining with the unattended flag still selects light sleep, and
100 s remaining, unattended, no console, deep sleep not disabled selects
deep sleep. -/
theorem checkDeepSleep_matches_policy :
    (∀ (ms : Nat) (t c d u : Bool),
      Scd30Loop.checkDeepSleep ms t c d u =
        Scd30Loop.sleepPolicySpec (ms / 1000) t c d u) ∧
    (∀ t c d : Bool, Scd30Loop.checkDeepSleep 1000 t c d true = false) ∧
    (∀ t : Bool, Scd30Loop.checkDeepSleep 100000 t false false true = true) :=
  ⟨fun _ _ _ _ _ => rfl, by decide, by decide⟩

/-- Claim C8: in the Sleeping state, a pending deactivate-request makes
`fsmDispatch` transition to Inactive — for every entry flag and every
combination of sensor readiness, driver error, remaining-time and
transmit inputs — clearing both request flags and the active flag. -/
theorem fsmDispatch_sleeping_deactivate_priority :
    ∀ (fEntry : Bool) (ls : Scd30Loop.LoopState) (i : Scd30Loop.LoopIn),
      Scd30Loop.fsmDispatch Scd30Loop.LState.stSleeping fEntry
          { ls with m_rqInactive := true } i =
        (Scd30Loop.LState.stInactive,
         ⟨false, false, false, ls.m_measurement_valid⟩) := by
  intro fEntry ls i
  simp [Scd30Loop.fsmDispatch]

/-- Claim C10: with a valid pressure of 1000 mBar on a running driver
and a cooperative bus, `startContinuousMeasurement(pressure)` reports
success but writes only the 2-byte command frame `00 36` — not the
claimed 5-byte frame carrying the big-endian pressure and its CRC —
because `startContinuousMeasurementCommon` never uses its parameter. -/
theorem startContinuousMeasurement_drops_pressure :
    (Scd30.startContinuousMeasurementWithPressure
        ⟨⟨⟨400, 25, 50⟩, 0, ⟨0, 2, 0, 0, 0, 0⟩, 0x61,
          Scd30.Error.Success, Scd30.State.Triggered⟩,
         ⟨0, [⟨2, 0⟩], []⟩, []⟩ 1000).2 = true ∧
    (Scd30.startContinuousMeasurementWithPressure
        ⟨⟨⟨400, 25, 50⟩, 0, ⟨0, 2, 0, 0, 0, 0⟩, 0x61,
          Scd30.Error.Success, Scd30.State.Triggered⟩,
         ⟨0, [⟨2, 0⟩], []⟩, []⟩ 1000).1.trace = [[0x00, 0x36]] ∧
    [[0x00, 0x36]] ≠
      [[0x00, 0x36, 0x03, 0xE8, Scd30.crc [0x03, 0xE8]]] := by
  refine ⟨by decide, by decide, by decide⟩

/-- Claim C5: on a running driver whose state is neither Ready nor Idle,
when the sampled clock has not yet reached the scheduled next-ready time
(wraparound-safe signed comparison), `queryReady` returns false with the
communication-error out-flag false and last error `Busy`, and changes
nothing else — in particular the state and the next-ready time are
untouched. -/
theorem queryReady_busy_before_ready_time (w : Scd30.W)
    (hrun : Scd30.isRunning w = true)
    (hready : w.drv.m_state ≠ Scd30.State.Ready)
    (hidle : w.drv.m_state ≠ Scd30.State.Idle)
    (htime : Scd30.toInt32 (Scd30.u32sub w.env.now w.drv.m_tReady) < 0) :
    Scd30.queryReady w =
      ({ w with drv := { w.drv with m_lastError := Scd30.Error.Busy } },
       false, false) := by
  simp [Scd30.queryReady, Scd30.checkRunning, hrun, hready, hidle, htime,
    Scd30.setLastError]

/-- Witness for claim C5's theorem: a Triggered driver at time 0 with
next-ready time 5000. -/
theorem queryReady_busy_before_ready_time_witness :
    Scd30.isRunning
        ⟨⟨⟨400, 25, 50⟩, 5000, ⟨0, 2, 0, 0, 0, 0⟩, 0x61,
          Scd30.Error.Success, Scd30.State.Triggered⟩,
         ⟨0, [], []⟩, []⟩ = true ∧
    Scd30.queryReady
        ⟨⟨⟨400, 25, 50⟩, 5000, ⟨0, 2, 0, 0, 0, 0⟩, 0x61,
          Scd30.Error.Success, Scd30.State.Triggered⟩,
         ⟨0, [], []⟩, []⟩ =
      (⟨⟨⟨400, 25, 50⟩, 5000, ⟨0, 2, 0, 0, 0, 0⟩, 0x61,
          Scd30.Error.Busy, Scd30.State.Triggered⟩,
        ⟨0, [], []⟩, []⟩, false, false) :=
  ⟨by decide,
   queryReady_busy_before_ready_time
     ⟨⟨⟨400, 25, 50⟩, 5000, ⟨0, 2, 0, 0, 0, 0⟩, 0x61,
       Scd30.Error.Success, Scd30.State.Triggered⟩,
      ⟨0, [], []⟩, []⟩ (by decide) (by decide) (by decide) (by decide)⟩

/-- `popWrite` leaves the driver fields alone. -/
theorem popWrite_drv (w : Scd30.W) : (Scd30.popWrite w).2.drv = w.drv := by
  unfold Scd30.popWrite
  rcases w.env.writes <;> rfl

/-- `popRead` leaves the driver fields alone. -/
theorem popRead_drv (w : Scd30.W) : (Scd30.popRead w).2.drv = w.drv := by
  unfold Scd30.popRead
  rcases w.env.reads <;> rfl

/-- `setLastError` does not touch the cached measurement. -/
theorem setLastError_meas (w : Scd30.W) (e : Scd30.Error) :
    (Scd30.setLastError w e).1.drv.m_Measurement =
      w.drv.m_Measurement := rfl

/-- `checkRunning` does not touch the cached measurement. -/
theorem checkRunning_meas (w : Scd30.W) :
    (Scd30.checkRunning w).1.drv.m_Measurement = w.drv.m_Measurement := by
  unfold Scd30.checkRunning
  split <;> simp [Scd30.setLastError]

/-- `writeCommandBuffer` does not touch the cached measurement. -/
theorem writeCommandBuffer_meas (w : Scd30.W) (frame : List Nat) :
    (Scd30.writeCommandBuffer w frame).1.drv.m_Measurement =
      w.drv.m_Measurement := by
  unfold Scd30.writeCommandBuffer
  dsimp only
  have h := popWrite_drv w
  repeat' split
  all_goals simp [Scd30.setLastError, h]

/-- `writeCommand` does not touch the cached measurement. -/
theorem writeCommand_meas (w : Scd30.W) (c : Scd30.Command) :
    (Scd30.writeCommand w c).1.drv.m_Measurement = w.drv.m_Measurement :=
  writeCommandBuffer_meas w _

/-- The CRC-check loop does not touch the cached measurement. -/
theorem crcMultiLoop_meas (w : Scd30.W) :
    ∀ buf : List Nat,
      (Scd30.crcMultiLoop w buf).1.drv.m_Measurement = w.drv.m_Measurement
  | b0 :: b1 :: b2 :: rest => by
      unfold Scd30.crcMultiLoop
      split
      · simp [Scd30.setLastError]
      · exact crcMultiLoop_meas w rest
  | [] => rfl
  | [_] => by simp [Scd30.crcMultiLoop, Scd30.setLastError]
  | [_, _] => by simp [Scd30.crcMultiLoop, Scd30.setLastError]

/-- `crc_multi` does not touch the cached measurement. -/
theorem crc_multi_meas (w : Scd30.W) (bufNull : Bool) (buf : List Nat) :
    (Scd30.crc_multi w bufNull buf).1.drv.m_Measurement =
      w.drv.m_Measurement := by
  unfold Scd30.crc_multi
  split
  · simp [Scd30.setLastError]
  · exact crcMultiLoop_meas w buf

/-- `readResponse` does not touch the cached measurement. -/
theorem readResponse_meas (w : Scd30.W) (bufNull : Bool) (nBuf : Nat) :
    (Scd30.readResponse w bufNull nBuf).1.drv.m_Measurement =
      w.drv.m_Measurement := by
  unfold Scd30.readResponse
  dsimp only
  have h := popRead_drv w
  split
  · simp [Scd30.setLastError]
  · split
    · simp [Scd30.setLastError, h]
    · split
      · simp [Scd30.setLastError, h]
      · split
        · simp [Scd30.setLastError, h]
        · rw [crc_multi_meas, h]

/-- `readUint16` does not touch the cached measurement. -/
theorem readUint16_meas (w : Scd30.W) (c : Scd30.Command) :
    (Scd30.readUint16 w c).1.drv.m_Measurement = w.drv.m_Measurement := by
  unfold Scd30.readUint16
  dsimp only
  repeat' split
  all_goals
    simp [readResponse_meas, writeCommand_meas, checkRunning_meas]

/-- `readDataReadyStatus` does not touch the cached measurement. -/
theorem readDataReadyStatus_meas (w : Scd30.W) :
    (Scd30.readDataReadyStatus w).1.drv.m_Measurement =
      w.drv.m_Measurement :=
  readUint16_meas w _

/-- `startContinuousMeasurementCommon` does not touch the cached
measurement. -/
theorem startContinuousMeasurementCommon_meas (w : Scd30.W) (p : Nat) :
    (Scd30.startContinuousMeasurementCommon w p).1.drv.m_Measurement =
      w.drv.m_Measurement := by
  unfold Scd30.startContinuousMeasurementCommon
  dsimp only
  repeat' split
  all_goals simp [writeCommand_meas, checkRunning_meas]

/-- `startContinuousMeasurement` does not touch the cached
measurement. -/
theorem startContinuousMeasurement_meas (w : Scd30.W) :
    (Scd30.startContinuousMeasurement w).1.drv.m_Measurement =
      w.drv.m_Measurement :=
  startContinuousMeasurementCommon_meas w 0

/-- `queryReady` does not touch the cached measurement. -/
theorem queryReady_meas (w : Scd30.W) :
    (Scd30.queryReady w).1.drv.m_Measurement = w.drv.m_Measurement := by
  unfold Scd30.queryReady
  dsimp only
  repeat' split
  all_goals
    simp [setLastError_meas, readDataReadyStatus_meas,
      startContinuousMeasurement_meas, checkRunning_meas,
      Scd30.setLastError]

/-- Claim C6 (amended): whenever the internal `queryReady` call returns
false, `readMeasurement` returns false and performs nothing beyond that
call — its result world is exactly `queryReady`'s world — and the cached
measurement is unchanged.  (`queryReady` itself may set the last error,
adjust the next-ready time, or issue a data-ready bus read; see the
counterexample.) -/
theorem readMeasurement_noop_beyond_queryReady (w : Scd30.W)
    (h : (Scd30.queryReady w).2.1 = false) :
    Scd30.readMeasurement w = ((Scd30.queryReady w).1, false) ∧
    (Scd30.readMeasurement w).1.drv.m_Measurement =
      w.drv.m_Measurement := by
  have h1 : Scd30.readMeasurement w = ((Scd30.queryReady w).1, false) := by
    unfold Scd30.readMeasurement
    simp [h]
  refine ⟨h1, ?_⟩
  rw [h1]
  exact queryReady_meas w

/-- Witness for claim C6's amended theorem: a Triggered driver polled
before its next-ready time. -/
theorem readMeasurement_noop_beyond_queryReady_witness :
    (Scd30.queryReady
        ⟨⟨⟨400, 25, 50⟩, 5000, ⟨0, 2, 0, 0, 0, 0⟩, 0x61,
          Scd30.Error.Success, Scd30.State.Triggered⟩,
         ⟨0, [], []⟩, []⟩).2.1 = false ∧
    (Scd30.readMeasurement
        ⟨⟨⟨400, 25, 50⟩, 5000, ⟨0, 2, 0, 0, 0, 0⟩, 0x61,
          Scd30.Error.Success, Scd30.State.Triggered⟩,
         ⟨0, [], []⟩, []⟩ =
      ((Scd30.queryReady
        ⟨⟨⟨400, 25, 50⟩, 5000, ⟨0, 2, 0, 0, 0, 0⟩, 0x61,
          Scd30.Error.Success, Scd30.State.Triggered⟩,
         ⟨0, [], []⟩, []⟩).1, false) ∧
     (Scd30.readMeasurement
        ⟨⟨⟨400, 25, 50⟩, 5000, ⟨0, 2, 0, 0, 0, 0⟩, 0x61,
          Scd30.Error.Success, Scd30.State.Triggered⟩,
         ⟨0, [], []⟩, []⟩).1.drv.m_Measurement =
      (⟨⟨⟨400, 25, 50⟩, 5000, ⟨0, 2, 0, 0, 0, 0⟩, 0x61,
          Scd30.Error.Success, Scd30.State.Triggered⟩,
         ⟨0, [], []⟩, []⟩ : Scd30.W).drv.m_Measurement) :=
  ⟨by decide,
   readMeasurement_noop_beyond_queryReady
     ⟨⟨⟨400, 25, 50⟩, 5000, ⟨0, 2, 0, 0, 0, 0⟩, 0x61,
       Scd30.Error.Success, Scd30.State.Triggered⟩,
      ⟨0, [], []⟩, []⟩ (by decide)⟩

/-- Claim C6 counterexample: a Triggered driver polled before its
next-ready time, with last error `Success` beforehand — the internal
`queryReady` returns false, and `readMeasurement` returns false, but the
last error has changed to `Busy`: the call is not free of side effects. -/
theorem readMeasurement_changes_lastError :
    (Scd30.queryReady
        ⟨⟨⟨400, 25, 50⟩, 5000, ⟨0, 2, 0, 0, 0, 0⟩, 0x61,
          Scd30.Error.Success, Scd30.State.Triggered⟩,
         ⟨0, [], []⟩, []⟩).2.1 = false ∧
    (Scd30.readMeasurement
        ⟨⟨⟨400, 25, 50⟩, 5000, ⟨0, 2, 0, 0, 0, 0⟩, 0x61,
          Scd30.Error.Success, Scd30.State.Triggered⟩,
         ⟨0, [], []⟩, []⟩).2 = false ∧
    (Scd30.readMeasurement
        ⟨⟨⟨400, 25, 50⟩, 5000, ⟨0, 2, 0, 0, 0, 0⟩, 0x61,
          Scd30.Error.Success, Scd30.State.Triggered⟩,
         ⟨0, [], []⟩, []⟩).1.drv.m_lastError = Scd30.Error.Busy ∧
    Scd30.Error.Busy ≠ Scd30.Error.Success := by
  refine ⟨by decide, by decide, by decide, by decide⟩

/-- Claim C9 (amended): in every payload built by `fillTxBuffer`, the
CO2 flag bit (bit 3) is set if and only if the sensor-present flag
`m_fSCD` is set, the last measurement is valid, and its CO2ppm value is
not exactly 0.0; and exactly under that condition the buffer carries two
extra bytes relative to the same build with CO2ppm zeroed (the 2-byte
CO2 field). -/
theorem fillTxBuffer_co2_field_iff (e : Scd30Loop.EncEnv)
    (fSCD valid : Bool) (m : Scd30.Measurement) :
    (((Scd30Loop.fillTxBuffer e fSCD valid m).2 &&& 8 ≠ 0) ↔
      (fSCD = true ∧ valid = true ∧ m.CO2ppm ≠ 0)) ∧
    (Scd30Loop.fillTxBuffer e fSCD valid m).1.length =
      (Scd30Loop.fillTxBuffer e fSCD valid
        { m with CO2ppm := 0 }).1.length +
      (if fSCD = true ∧ valid = true ∧ m.CO2ppm ≠ 0 then 2 else 0) := by
  cases fSCD <;> cases valid <;>
    rcases hb : e.bootCount with _ | bc <;>
    by_cases hc : m.CO2ppm = 0 <;>
    simp [Scd30Loop.fillTxBuffer, Scd30Loop.put2u, Scd30Loop.put2i,
      Scd30Loop.FlagsVbat, Scd30Loop.FlagsBoot, Scd30Loop.FlagsTH,
      Scd30Loop.FlagsCO2ppm, hb, hc]
  all_goals first
  | decide
  | omega

/-- Claim C9 counterexample: with the sensor-present flag `m_fSCD`
clear but the measurement valid and CO2ppm = 412.5 (≠ 0.0), the built
payload's flags byte has the CO2 bit clear and the buffer contains no
CO2 field — the condition also requires `m_fSCD`. -/
theorem fillTxBuffer_co2_needs_fSCD :
    (Scd30Loop.fillTxBuffer
        ⟨fun _ => [0, 0], fun _ => [0], fun _ => 0, 0x14, 33 / 10, none⟩
        false true ⟨825 / 2, 20, 50⟩).2 &&& 8 = 0 ∧
    (Scd30Loop.fillTxBuffer
        ⟨fun _ => [0, 0], fun _ => [0], fun _ => 0, 0x14, 33 / 10, none⟩
        false true ⟨825 / 2, 20, 50⟩).1 = [0x14, 1, 0, 0] ∧
    (825 / 2 : ℚ) ≠ 0 := by
  refine ⟨rfl, rfl, by norm_num⟩
